import Mathlib

/-!
Shallow embedding of the repository's two Python modules
(`radgraph_runner.py` and `app.py`) for verification.

Python values are modelled by the inductive type `PyVal`: dicts are
ordered association lists (insertion order, as in CPython), lists and
tuples are Lean lists, and `None`, booleans, integers and strings are
tagged directly.  Fallible Python code (code that can raise) is modelled
with `Except String`.  The external `radgraph` package is not part of
this repository, so the optional helper
`get_radgraph_processed_annotations` inside `normalize_radgraph_outputs`
is modelled as unavailable (its import raises and both `except` arms
fall through), and the model callable itself is an abstract parameter.
-/

/-- A Python runtime value, as used by the glue code of this repository. -/
inductive PyVal where
  | none : PyVal
  | bool : Bool → PyVal
  | int : Int → PyVal
  | str : String → PyVal
  | list : List PyVal → PyVal
  | tuple : List PyVal → PyVal
  | dict : List (PyVal × PyVal) → PyVal

/-- `isinstance(v, dict)`. -/
def PyVal.isDict : PyVal → Bool
  | .dict _ => true
  | _ => false

/-- `isinstance(v, list)`. -/
def PyVal.isList : PyVal → Bool
  | .list _ => true
  | _ => false

/-- `isinstance(v, tuple)`. -/
def PyVal.isTuple : PyVal → Bool
  | .tuple _ => true
  | _ => false

/-- Python truthiness of a value (`bool(v)`). -/
def PyVal.truthy : PyVal → Bool
  | .none => false
  | .bool b => b
  | .int n => decide (n ≠ 0)
  | .str s => !s.isEmpty
  | .list l => !l.isEmpty
  | .tuple l => !l.isEmpty
  | .dict d => !d.isEmpty

/-- Python `k == s` for a string literal `s`: true exactly when the key is
that string.  Every dict lookup in this repository uses a string-literal
key, so this is the only key comparison the embedding needs. -/
def pyStrKey (v : PyVal) (s : String) : Bool :=
  match v with
  | .str t => t = s
  | _ => false

/-- Lookup of a string-literal key in a dict's entry list (Python dicts
have unique keys, so the first match is the only match). -/
def pyLookup (d : List (PyVal × PyVal)) (k : String) : Option PyVal :=
  (d.find? (fun kv => pyStrKey kv.1 k)).map (fun kv => kv.2)

/-- Python `d.get(k)` (default `None`). -/
def dget (d : List (PyVal × PyVal)) (k : String) : PyVal :=
  (pyLookup d k).getD PyVal.none

/-- Python `d.get(k, dflt)`. -/
def dgetD (d : List (PyVal × PyVal)) (k : String) (dflt : PyVal) : PyVal :=
  (pyLookup d k).getD dflt

/-- Python `a or b`: `a` when truthy, else `b`. -/
def pyOr (a b : PyVal) : PyVal :=
  if a.truthy then a else b

/-- The entry list of a value that is a dict, `[]` otherwise. -/
def pyDictEntries : PyVal → List (PyVal × PyVal)
  | .dict d => d
  | _ => []

/-- Python iteration `for x in v`: lists and tuples yield their elements,
strings yield their characters as one-character strings, dicts yield
their keys; other values raise `TypeError`. -/
def pyElems : PyVal → Except String (List PyVal)
  | .list l => .ok l
  | .tuple l => .ok l
  | .str s => .ok (s.toList.map (fun c => PyVal.str (String.mk [c])))
  | .dict d => .ok (d.map (fun kv => kv.1))
  | _ => .error "TypeError: object is not iterable"

/-- `radgraph_runner.py` lines 95-96: a 2-element list whose first element
is not a dict and whose second element is a list is replaced by (a copy
of) that second element; anything else is left unchanged. -/
def listCollapse (l : List PyVal) : List PyVal :=
  match l with
  | [x, PyVal.list ys] => if x.isDict then l else ys
  | _ => l

/-- `radgraph_runner.py` lines 91-92: a 2-tuple whose second component is
a list or a tuple is replaced by `list` of that second component;
anything else is left unchanged. -/
def tupleCollapse (v : PyVal) : PyVal :=
  match v with
  | PyVal.tuple [_, PyVal.list ys] => PyVal.list ys
  | PyVal.tuple [_, PyVal.tuple ys] => PyVal.list ys
  | w => w

/-- `radgraph_runner.py` lines 87-96: the sequential reassignments of
`raw_outputs` before the processing loop — wrap a single dict into a
one-element list, then the tuple collapse, then (on the value that
resulted, when it is a list) the 2-element-list collapse. -/
def collapseShapes (x : PyVal) : PyVal :=
  let a := match x with
    | PyVal.dict d => PyVal.list [PyVal.dict d]
    | v => v
  match tupleCollapse a with
  | PyVal.list l => PyVal.list (listCollapse l)
  | v => v

/-- `radgraph_runner.py` lines 114-119: one iteration of the processing
loop with the optional `radgraph` helper unavailable — a dict is kept
unchanged, any other element is wrapped as `\x7b"raw": e\x7d`. -/
def normOne (e : PyVal) : PyVal :=
  if e.isDict then e else PyVal.dict [(PyVal.str "raw", e)]

/-- `radgraph_runner.py` lines 76-120, `normalize_radgraph_outputs`, with
the optional helper `get_radgraph_processed_annotations` unavailable
(the external `radgraph` package is not part of this repository, so
importing it raises and both inner `except` arms fall through to the
dict check).  Raises `TypeError` when the shape-collapsed value is not
iterable. -/
def normalize_radgraph_outputs (x : PyVal) : Except String (List PyVal) :=
  (pyElems (collapseShapes x)).map (fun es => es.map normOne)

/-- `radgraph_runner.py` lines 133-138: one iteration of the per-report
fallback loop of `annotate_reports` — the model called on the single
report string, with a raised exception replaced by the substitute dict
`\x7b"error": str(e2), "input": r\x7d`. -/
def perReportCall (m : PyVal → Except String PyVal) (r : String) : PyVal :=
  match m (PyVal.str r) with
  | .ok o => o
  | .error e2 => PyVal.dict [(PyVal.str "error", PyVal.str e2), (PyVal.str "input", PyVal.str r)]

/-- `radgraph_runner.py` lines 122-141, `annotate_reports`: try the model
on the whole list of reports; when that raises, rebuild the outputs by
calling the model on each report string (substituting an error dict for
a report whose individual call raises); finally normalize. -/
def annotate_reports (m : PyVal → Except String PyVal) (reports : List String) :
    Except String (List PyVal) :=
  let raw : PyVal :=
    match m (PyVal.list (reports.map PyVal.str)) with
    | .ok out => out
    | .error _ => PyVal.list (reports.map (perReportCall m))
  normalize_radgraph_outputs raw

/-- Python `a or b` on `os.environ.get` results: the first operand when
it is a non-empty string, otherwise the second operand. -/
def pyOrStrOpt (a b : Option String) : Option String :=
  match a with
  | some s => if s.isEmpty then b else some s
  | Option.none => b

/-- `radgraph_runner.py` lines 29-44, `ensure_hf_auth`: read the first
truthy token among the three environment variables; without one return
`False`; with one, attempt the Hugging Face login and return `True` on
success and `False` when the login raises.  The environment is the map
`env` and the login call is the abstract fallible `hf_login`. -/
def ensure_hf_auth (env : String → Option String) (hf_login : String → Except String Unit) :
    Bool :=
  let token := pyOrStrOpt (env "HUGGINGFACEHUB_API_TOKEN")
    (pyOrStrOpt (env "HF_TOKEN") (env "HUGGINGFACE_TOKEN"))
  match token with
  | Option.none => false
  | some t =>
    if t.isEmpty then false
    else
      match hf_login t with
      | .ok _ => true
      | .error _ => false

/-- `radgraph_runner.py` lines 46-73, `load_radgraph_model`: run
`ensure_hf_auth` (its result is discarded), resolve a `None` model id
from `RADGRAPH_MODEL_ID` with default `"modern-radgraph-xl"`, then build
the RadGraph wrapper.  `rg_init` abstracts the lazy `radgraph` import
plus `RadGraph(model_type=...)`, either of which can raise; those
exceptions propagate to the caller. -/
def load_radgraph_model {α : Type} (env : String → Option String)
    (hf_login : String → Except String Unit) (rg_init : String → Except String α)
    (model_id : Option String) : Except String α :=
  let _ := ensure_hf_auth env hf_login
  let mid := match model_id with
    | Option.none => (env "RADGRAPH_MODEL_ID").getD "modern-radgraph-xl"
    | some s => s
  rg_init mid

/-- Python whitespace for `str.strip()`: space, tab, newline, carriage
return, vertical tab, form feed. -/
def isPySpace (c : Char) : Bool :=
  c == ' ' || c == '\t' || c == '\n' || c == '\r' || c == Char.ofNat 11 || c == Char.ofNat 12

/-- Python `s.strip()`: remove leading and trailing whitespace. -/
def pyStrip (s : String) : String :=
  String.mk (((s.toList.dropWhile isPySpace).reverse.dropWhile isPySpace).reverse)

/-- The parameter names of `load_radgraph_model` (`radgraph_runner.py`
line 46): the single parameter `model_id`. -/
def load_radgraph_model_params : List String := ["model_id"]

/-- `app.py` lines 56-58, `_get_model`: the body calls
`load_radgraph_model(model_type=model_type_param)`.  Python checks the
keyword name against the callee's parameter list before running the
body, raising `TypeError` when it is not accepted; the underlying loader
(already specialised to a keyword-resolved optional `model_id`) is the
abstract `loadImpl`. -/
def _get_model {α : Type} (loadImpl : Option String → Except String α)
    (model_type_param : String) : Except String α :=
  if load_radgraph_model_params.contains "model_type" then loadImpl (some model_type_param)
  else .error "TypeError: load_radgraph_model() got an unexpected keyword argument model_type"

/-- What the Annotate click handler of `app.py` ends up displaying. -/
inductive AppResult where
  | warning : AppResult
  | shown : PyVal → AppResult
  | errorShown : AppResult

/-- `app.py` lines 60-163: the Annotate click handler.  Whitespace-only
text gets a warning; otherwise the model is obtained through
`_get_model`, `annotate_reports` runs on the one-element list
`[report_text]` and element 0 of its result is displayed; any exception
inside the `try` block (including the `TypeError` from `_get_model` and
an `IndexError` on an empty output list) is caught and an error is
displayed. -/
def run_annotate_click (loadImpl : Option String → Except String (PyVal → Except String PyVal))
    (model_type report_text : String) : AppResult :=
  if (pyStrip report_text).isEmpty then AppResult.warning
  else
    match _get_model loadImpl model_type with
    | .error _ => AppResult.errorShown
    | .ok mdl =>
      match annotate_reports mdl [report_text] with
      | .error _ => AppResult.errorShown
      | .ok [] => AppResult.errorShown
      | .ok (o :: _) => AppResult.shown o

/-- An entity row built by `_extract_entities_relations` (`app.py` lines
99-105): a dict with exactly the keys `id`, `text`, `label`, `start`,
`end`. -/
structure EntRec where
  id : PyVal
  text : PyVal
  label : PyVal
  start : PyVal
  end_ : PyVal

/-- A relation row built by `_extract_entities_relations` (`app.py`
lines 114 and 117): a dict with exactly the keys `source`, `target`,
`label`. -/
structure RelRec where
  source : PyVal
  target : PyVal
  label : PyVal

/-- `app.py` lines 94-105: the entity row built from one entry of
`out['entities']` whose value is the dict `edd`. -/
def entRecOf (eid : PyVal) (edd : List (PyVal × PyVal)) : EntRec :=
  { id := eid
  , text := pyOr (dget edd "text") (pyOr (dget edd "tokens") (pyOr (dget edd "tokens_text") (PyVal.str "")))
  , label := pyOr (dget edd "label") (PyVal.str "")
  , start := dgetD edd "start" PyVal.none
  , end_ := dgetD edd "end" PyVal.none }

/-- One iteration of the entity loop (`app.py` lines 93-105): a non-dict
entity value has no `.get` attribute, so the iteration raises. -/
def entStep (kv : PyVal × PyVal) : Except String EntRec :=
  match kv.2 with
  | PyVal.dict edd => .ok (entRecOf kv.1 edd)
  | _ => .error "AttributeError: object has no attribute get"

/-- The entity `for` loop of `app.py` lines 93-105 over the entries of
`out['entities']`: builds one row per entry in iteration order, and a
raised exception aborts the rest of the loop. -/
def entLoop : List (PyVal × PyVal) → Except String (List EntRec)
  | [] => .ok []
  | kv :: t =>
    match entStep kv with
    | .error e => .error e
    | .ok r =>
      match entLoop t with
      | .error e => .error e
      | .ok rs => .ok (r :: rs)

/-- `app.py` lines 88-105: the entity pass of
`_extract_entities_relations`.  Runs only when `out` is a dict whose key
`entities` holds a dict; raises at the first entity value that is not a
dict. -/
def extractEnts (out : PyVal) : Except String (List EntRec) :=
  match out with
  | PyVal.dict d =>
    match pyLookup d "entities" with
    | some (PyVal.dict entd) => entLoop entd
    | _ => .ok []
  | _ => .ok []

/-- `app.py` lines 108-117: the relation row (if any) built from one
element of `out['relations']`. -/
def relRecOf : PyVal → Option RelRec
  | PyVal.dict r =>
    some { source := pyOr (dget r "source") (pyOr (dget r "from") (pyOr (dget r "head") (dget r "arg1")))
         , target := pyOr (dget r "target") (pyOr (dget r "to") (pyOr (dget r "tail") (dget r "arg2")))
         , label := pyOr (dget r "label") (pyOr (dget r "type") (PyVal.str "")) }
  | PyVal.list (a :: b :: c :: _) => some { source := a, target := b, label := c }
  | PyVal.tuple (a :: b :: c :: _) => some { source := a, target := b, label := c }
  | _ => Option.none

/-- `app.py` lines 106-117: the relation pass of
`_extract_entities_relations`.  Runs only when `out` is a dict whose key
`relations` holds a list; elements that are neither dicts nor sequences
of length at least 3 are dropped. -/
def extractRels (out : PyVal) : List RelRec :=
  match out with
  | PyVal.dict d =>
    match pyLookup d "relations" with
    | some (PyVal.list rl) => rl.filterMap relRecOf
    | _ => []
  | _ => []

/-- `app.py` lines 87-119, `_extract_entities_relations`: the entity
pass runs first and its exception (on a non-dict entity value) aborts
the whole call; otherwise the relation pass follows. -/
def _extract_entities_relations (out : PyVal) : Except String (List EntRec × List RelRec) :=
  match extractEnts out with
  | .error e => .error e
  | .ok ents => .ok (ents, extractRels out)

/-- Spec-side helper: the first truthy value in a list, else a default. -/
def firstTruthy (vals : List PyVal) (dflt : PyVal) : PyVal :=
  match vals.find? (fun v => v.truthy) with
  | some v => v
  | Option.none => dflt

/-- Spec-side entity row, phrased as the spec claim phrases it: `id` is
the entity key, `text` is the first truthy value among the entity's
`text`, `tokens`, `tokens_text` fields (else the empty string), `label`
is the entity's `label` if truthy (else the empty string), `start` and
`end` are the entity's `start` and `end` values (defaulting to `None`
when absent). -/
def specEntRec (eid : PyVal) (edd : List (PyVal × PyVal)) : EntRec :=
  { id := eid
  , text := firstTruthy [dget edd "text", dget edd "tokens", dget edd "tokens_text"] (PyVal.str "")
  , label := if (dget edd "label").truthy then dget edd "label" else PyVal.str ""
  , start := dgetD edd "start" PyVal.none
  , end_ := dgetD edd "end" PyVal.none }

/-- Spec-side relation row for a dict element, phrased as the amended
claim phrases it: `source` (resp. `target`) is the first truthy value
among the element's `source`/`from`/`head`/`arg1` (resp.
`target`/`to`/`tail`/`arg2`) values, else the value of the last of those
keys (`None` when absent); `label` is the first truthy of
`label`/`type`, else the empty string; list/tuple elements of length at
least 3 map positionally; every other element is dropped. -/
def specRelRec : PyVal → Option RelRec
  | PyVal.dict r =>
    some { source := firstTruthy [dget r "source", dget r "from", dget r "head", dget r "arg1"] (dget r "arg1")
         , target := firstTruthy [dget r "target", dget r "to", dget r "tail", dget r "arg2"] (dget r "arg2")
         , label := firstTruthy [dget r "label", dget r "type"] (PyVal.str "") }
  | PyVal.list (a :: b :: c :: _) => some { source := a, target := b, label := c }
  | PyVal.tuple (a :: b :: c :: _) => some { source := a, target := b, label := c }
  | _ => Option.none

/-- The entity pass of `_extract_entities_relations` cannot raise on
`out`: either `out` has no dict under an `entities` key, or every entity
value is itself a dict. -/
def entsSafe (out : PyVal) : Bool :=
  match out with
  | PyVal.dict d =>
    match pyLookup d "entities" with
    | some (PyVal.dict entd) => entd.all (fun kv => kv.2.isDict)
    | _ => true
  | _ => true

/-- `out` is not a dict, or its `relations` key does not hold a list. -/
def relationsNotAList (out : PyVal) : Bool :=
  match out with
  | PyVal.dict d =>
    match pyLookup d "relations" with
    | some (PyVal.list _) => false
    | _ => true
  | _ => true

/-- A model callable that raises both on the whole batch and on every
single report string. -/
def mBothFail : PyVal → Except String PyVal := fun v =>
  match v with
  | PyVal.list _ => .error "listfail"
  | _ => .error "boom"

/-- A model callable that raises on the whole batch, answers the string
`"a"` with the bare string `"x"`, and answers any other string with the
one-element list `["y"]`. -/
def mSplitBatch : PyVal → Except String PyVal := fun v =>
  match v with
  | PyVal.list _ => .error "batchfail"
  | PyVal.str s => if s = "a" then .ok (PyVal.str "x") else .ok (PyVal.list [PyVal.str "y"])
  | _ => .error "unsupported"

/-- A model callable that always answers with a fixed one-key dict. -/
def mConstDict : PyVal → Except String PyVal :=
  fun _ => .ok (PyVal.dict [(PyVal.str "k", PyVal.str "v")])

/-- An environment with no variables set. -/
def envEmpty : String → Option String := fun _ => Option.none

/-- An environment with only `HF_TOKEN` set, to `"tok"`. -/
def envHfToken : String → Option String :=
  fun k => if k = "HF_TOKEN" then some "tok" else Option.none

/-- A Hugging Face login call that always succeeds. -/
def loginAlwaysOk : String → Except String Unit := fun _ => .ok ()

/-- A Hugging Face login call that always raises. -/
def loginAlwaysFails : String → Except String Unit := fun _ => .error "login raised"

/-- The tuple `("m", ("j", ["d"]))`: a 2-tuple whose second component is
itself a 2-sequence of a non-dict and a list. -/
def c6Input : PyVal :=
  PyVal.tuple [PyVal.str "m", PyVal.tuple [PyVal.str "j", PyVal.list [PyVal.str "d"]]]

/-- The dict `\x7b"entities": \x7b"e1": 5\x7d\x7d`: its `entities` key holds a
dict, but the entity value `5` is not a dict. -/
def entBadInput : PyVal :=
  PyVal.dict [(PyVal.str "entities", PyVal.dict [(PyVal.str "e1", PyVal.int 5)])]

/-- The dict `\x7b"relations": [\x7b"source": "", "from": "B"\x7d]\x7d`: its one
relation element has a present-but-falsy `source` key. -/
def relCexInput : PyVal :=
  PyVal.dict [(PyVal.str "relations",
    PyVal.list [PyVal.dict [(PyVal.str "source", PyVal.str ""), (PyVal.str "from", PyVal.str "B")]])]

lemma normOne_of_dict {e : PyVal} (h : e.isDict = true) : normOne e = e := by
  simp [normOne, h]

lemma normOne_of_not_dict {e : PyVal} (h : e.isDict = false) :
    normOne e = PyVal.dict [(PyVal.str "raw", e)] := by
  simp [normOne, h]

lemma normOne_isDict (e : PyVal) : (normOne e).isDict = true := by
  by_cases h : e.isDict = true
  · simp [normOne, h]
  · have h2 : e.isDict = false := by simpa using h
    rw [normOne_of_not_dict h2]
    rfl

lemma map_normOne_of_all_dict {l : List PyVal} (h : ∀ y ∈ l, y.isDict = true) :
    l.map normOne = l := by
  induction l with
  | nil => rfl
  | cons a t ih =>
    simp only [List.map_cons]
    rw [normOne_of_dict (h a (by simp)), ih (fun y hy => h y (by simp [hy]))]

lemma listCollapse_of_all_dict {ys : List PyVal} (h : ∀ y ∈ ys, y.isDict = true) :
    listCollapse ys = ys := by
  match ys, h with
  | [], _ => rfl
  | [a], _ => rfl
  | a :: b :: c :: t, _ => cases b <;> rfl
  | [a, b], h =>
    have ha : a.isDict = true := h a (by simp)
    cases b with
    | list ys2 => simp [listCollapse, ha]
    | none => rfl
    | bool v => rfl
    | int v => rfl
    | str v => rfl
    | tuple v => rfl
    | dict v => rfl

lemma listCollapse_of_fst_dict {x : PyVal} (y : PyVal) (h : x.isDict = true) :
    listCollapse [x, y] = [x, y] := by
  cases y with
  | list ys2 => simp [listCollapse, h]
  | none => rfl
  | bool v => rfl
  | int v => rfl
  | str v => rfl
  | tuple v => rfl
  | dict v => rfl

lemma collapseShapes_list (l : List PyVal) :
    collapseShapes (PyVal.list l) = PyVal.list (listCollapse l) := rfl

lemma pyElems_ok_of_seq {v : PyVal} (h : v.isList = true ∨ v.isTuple = true) :
    ∃ es, pyElems v = .ok es := by
  cases v with
  | list l => exact ⟨l, rfl⟩
  | tuple l => exact ⟨l, rfl⟩
  | none => simp [PyVal.isList, PyVal.isTuple] at h
  | bool b => simp [PyVal.isList, PyVal.isTuple] at h
  | int n => simp [PyVal.isList, PyVal.isTuple] at h
  | str s => simp [PyVal.isList, PyVal.isTuple] at h
  | dict d => simp [PyVal.isList, PyVal.isTuple] at h

lemma collapseShapes_isSeq {x : PyVal}
    (h : x.isDict = true ∨ x.isList = true ∨ x.isTuple = true) :
    (collapseShapes x).isList = true ∨ (collapseShapes x).isTuple = true := by
  cases x with
  | dict d => left; rfl
  | list l => left; rfl
  | tuple l =>
    match l with
    | [] => right; rfl
    | [a] => right; rfl
    | a :: b :: c :: t => right; cases b <;> rfl
    | [a, b] =>
      cases b with
      | list ys => left; rfl
      | tuple ys => left; rfl
      | none => right; rfl
      | bool v => right; rfl
      | int v => right; rfl
      | str v => right; rfl
      | dict v => right; rfl
  | none => simp [PyVal.isDict, PyVal.isList, PyVal.isTuple] at h
  | bool b => simp [PyVal.isDict, PyVal.isList, PyVal.isTuple] at h
  | int n => simp [PyVal.isDict, PyVal.isList, PyVal.isTuple] at h
  | str s => simp [PyVal.isDict, PyVal.isList, PyVal.isTuple] at h

/-- Claim C1: for every input that is a dict, a list, or a tuple (with the
optional radgraph helper unavailable), `normalize_radgraph_outputs`
returns a list in which every element is a dict — the iterated elements
(after the documented shape collapsing) that are already dicts are kept
unchanged, and every non-dict element `e` is replaced by the wrapper
dict `\x7b"raw": e\x7d`. -/
theorem c1_normalize_returns_dict_rows (x : PyVal)
    (h : x.isDict = true ∨ x.isList = true ∨ x.isTuple = true) :
    ∃ es, pyElems (collapseShapes x) = .ok es ∧
      normalize_radgraph_outputs x = .ok (es.map normOne) ∧
      (∀ e ∈ es, e.isDict = true → normOne e = e) ∧
      (∀ e ∈ es, e.isDict = false → normOne e = PyVal.dict [(PyVal.str "raw", e)]) ∧
      (∀ y ∈ es.map normOne, y.isDict = true) := by
  obtain ⟨es, hes⟩ := pyElems_ok_of_seq (collapseShapes_isSeq h)
  refine ⟨es, hes, ?_, ?_, ?_, ?_⟩
  · simp [normalize_radgraph_outputs, hes, Except.map]
  · intro e _ he; exact normOne_of_dict he
  · intro e _ he; exact normOne_of_not_dict he
  · intro y hy
    obtain ⟨e, _, rfl⟩ := List.mem_map.mp hy
    exact normOne_isDict e

/-- Witness for C1 at the concrete input `["q"]`. -/
theorem c1_witness :
    ((PyVal.list [PyVal.str "q"]).isDict = true ∨ (PyVal.list [PyVal.str "q"]).isList = true
      ∨ (PyVal.list [PyVal.str "q"]).isTuple = true)
    ∧ ∃ es, pyElems (collapseShapes (PyVal.list [PyVal.str "q"])) = .ok es ∧
        normalize_radgraph_outputs (PyVal.list [PyVal.str "q"]) = .ok (es.map normOne) ∧
        (∀ e ∈ es, e.isDict = true → normOne e = e) ∧
        (∀ e ∈ es, e.isDict = false → normOne e = PyVal.dict [(PyVal.str "raw", e)]) ∧
        (∀ y ∈ es.map normOne, y.isDict = true) :=
  ⟨Or.inr (Or.inl rfl),
   c1_normalize_returns_dict_rows (PyVal.list [PyVal.str "q"]) (Or.inr (Or.inl rfl))⟩

/-- Claim C7: a single-document dict is treated exactly as the
one-element list containing it. -/
theorem c7_dict_as_singleton (kvs : List (PyVal × PyVal)) :
    normalize_radgraph_outputs (PyVal.dict kvs)
      = normalize_radgraph_outputs (PyVal.list [PyVal.dict kvs]) := rfl

/-- Claim C9: with the optional radgraph helper unavailable,
`normalize_radgraph_outputs` is idempotent on every dict, list, or tuple
input: applying it to its own (list) result returns that result
unchanged. -/
theorem c9_idempotent (x : PyVal)
    (_hkind : x.isDict = true ∨ x.isList = true ∨ x.isTuple = true)
    (ys : List PyVal) (hys : normalize_radgraph_outputs x = .ok ys) :
    normalize_radgraph_outputs (PyVal.list ys) = .ok ys := by
  obtain ⟨es, hes, rfl⟩ : ∃ es, pyElems (collapseShapes x) = .ok es ∧ ys = es.map normOne := by
    unfold normalize_radgraph_outputs at hys
    cases hpe : pyElems (collapseShapes x) with
    | error e => rw [hpe] at hys; simp [Except.map] at hys
    | ok es =>
      rw [hpe] at hys
      simp only [Except.map] at hys
      exact ⟨es, rfl, (Except.ok.injEq _ _).mp hys.symm⟩
  have hall : ∀ y ∈ es.map normOne, y.isDict = true := by
    intro y hy
    obtain ⟨e, _, rfl⟩ := List.mem_map.mp hy
    exact normOne_isDict e
  unfold normalize_radgraph_outputs
  rw [collapseShapes_list, listCollapse_of_all_dict hall]
  simp only [pyElems, Except.map]
  rw [map_normOne_of_all_dict hall]

/-- Witness for C9 at the concrete input `["q"]`. -/
theorem c9_witness :
    ((PyVal.list [PyVal.str "q"]).isDict = true ∨ (PyVal.list [PyVal.str "q"]).isList = true
      ∨ (PyVal.list [PyVal.str "q"]).isTuple = true)
    ∧ normalize_radgraph_outputs (PyVal.list [PyVal.str "q"])
        = .ok [PyVal.dict [(PyVal.str "raw", PyVal.str "q")]]
    ∧ normalize_radgraph_outputs (PyVal.list [PyVal.dict [(PyVal.str "raw", PyVal.str "q")]])
        = .ok [PyVal.dict [(PyVal.str "raw", PyVal.str "q")]] :=
  ⟨Or.inr (Or.inl rfl), rfl,
   c9_idempotent (PyVal.list [PyVal.str "q"]) (Or.inr (Or.inl rfl))
     [PyVal.dict [(PyVal.str "raw", PyVal.str "q")]] rfl⟩

/-- Counterexample to C6 as stated: for the 2-tuple
`("m", ("j", ["d"]))` the code does not return the per-element
normalization of the second component `("j", ["d"])` (which would have
two rows); the list collapse fires a second time on the collapsed value
and only `["d"]` is normalized. -/
theorem c6_counterexample :
    normalize_radgraph_outputs c6Input = .ok [PyVal.dict [(PyVal.str "raw", PyVal.str "d")]]
    ∧ [PyVal.str "j", PyVal.list [PyVal.str "d"]].map normOne
        ≠ [PyVal.dict [(PyVal.str "raw", PyVal.str "d")]] := by
  refine ⟨rfl, ?_⟩
  intro h
  have := congrArg List.length h
  simp at this

/-- Claim C6 as amended: a 2-tuple `(x, ys)` with `ys` a list or tuple is
collapsed to `ys` and the 2-element-list collapse then runs once more on
`ys` itself (`listCollapse`) before per-element normalization; a
2-element list `[x, ys]` with `x` not a dict and `ys` a list is replaced
by `ys` and normalized per element; a 2-element list whose first element
is a dict is not collapsed and is normalized element by element. -/
theorem c6_pair_collapse :
    (∀ x ys, normalize_radgraph_outputs (PyVal.tuple [x, PyVal.list ys])
        = .ok ((listCollapse ys).map normOne))
    ∧ (∀ x ys, normalize_radgraph_outputs (PyVal.tuple [x, PyVal.tuple ys])
        = .ok ((listCollapse ys).map normOne))
    ∧ (∀ x ys, x.isDict = false →
        normalize_radgraph_outputs (PyVal.list [x, PyVal.list ys]) = .ok (ys.map normOne))
    ∧ (∀ x y, x.isDict = true →
        normalize_radgraph_outputs (PyVal.list [x, y]) = .ok ([x, y].map normOne)) := by
  refine ⟨fun x ys => rfl, fun x ys => rfl, ?_, ?_⟩
  · intro x ys hx
    unfold normalize_radgraph_outputs
    rw [collapseShapes_list]
    simp [listCollapse, hx, pyElems, Except.map]
  · intro x y hx
    unfold normalize_radgraph_outputs
    rw [collapseShapes_list, listCollapse_of_fst_dict y hx]
    simp [pyElems, Except.map]

/-- Witness for the amended C6 at concrete inputs. -/
theorem c6_witness :
    (PyVal.str "a").isDict = false
    ∧ normalize_radgraph_outputs (PyVal.list [PyVal.str "a", PyVal.list [PyVal.dict []]])
        = .ok ([PyVal.dict []].map normOne)
    ∧ (PyVal.dict []).isDict = true
    ∧ normalize_radgraph_outputs (PyVal.list [PyVal.dict [], PyVal.str "z"])
        = .ok ([PyVal.dict [], PyVal.str "z"].map normOne) :=
  ⟨rfl, c6_pair_collapse.2.2.1 _ _ rfl, rfl, c6_pair_collapse.2.2.2 _ _ rfl⟩

/-- Counterexample to C3 as stated: when the batched call raises, the
code does attempt further recovery — `annotate_reports` retries the
report individually and, when that also raises, produces the substitute
output record `\x7b"error": "boom", "input": "r1"\x7d` instead of producing
nothing. -/
theorem c3_counterexample :
    annotate_reports mBothFail ["r1"]
      = .ok [PyVal.dict [(PyVal.str "error", PyVal.str "boom"), (PyVal.str "input", PyVal.str "r1")]] := rfl

/-- Claim C3 as amended: when the batched call `radgraph_model(reports)`
raises, the `except` arm of the single try/except retries each report
individually and substitutes the record `\x7b"error": str(e2), "input": r\x7d`
for each report whose individual call raises; the rebuilt list is then
normalized. -/
theorem c3_fallback (m : PyVal → Except String PyVal) (reports : List String) (e0 : String)
    (hb : m (PyVal.list (reports.map PyVal.str)) = .error e0) :
    annotate_reports m reports
      = normalize_radgraph_outputs (PyVal.list (reports.map (perReportCall m)))
    ∧ ∀ r e2, m (PyVal.str r) = .error e2 →
        perReportCall m r
          = PyVal.dict [(PyVal.str "error", PyVal.str e2), (PyVal.str "input", PyVal.str r)] := by
  constructor
  · simp [annotate_reports, hb]
  · intro r e2 h2
    simp [perReportCall, h2]

/-- Witness for the amended C3 at the one-report batch `["r1"]` with a
model that raises on both call shapes. -/
theorem c3_witness :
    mBothFail (PyVal.list (["r1"].map PyVal.str)) = .error "listfail"
    ∧ (annotate_reports mBothFail ["r1"]
        = normalize_radgraph_outputs (PyVal.list (["r1"].map (perReportCall mBothFail)))
      ∧ ∀ r e2, mBothFail (PyVal.str r) = .error e2 →
          perReportCall mBothFail r
            = PyVal.dict [(PyVal.str "error", PyVal.str e2), (PyVal.str "input", PyVal.str r)]) :=
  ⟨rfl, c3_fallback mBothFail ["r1"] "listfail" rfl⟩

/-- Counterexample to C8 as stated: with two reports whose individual
results are the non-dict `"x"` and the list `["y"]`, normalization
collapses the rebuilt pair and the returned list has one entry for two
input reports. -/
theorem c8_counterexample :
    annotate_reports mSplitBatch ["a", "b"] = .ok [PyVal.dict [(PyVal.str "raw", PyVal.str "y")]]
    ∧ ([PyVal.dict [(PyVal.str "raw", PyVal.str "y")]] : List PyVal).length
        ≠ (["a", "b"] : List String).length :=
  ⟨rfl, by decide⟩

/-- Claim C8 as amended: when the batched call raises and the rebuilt
per-report list does not match the 2-element-list collapse pattern of
normalization (exactly two entries, the first not a dict, the second a
list), `annotate_reports` returns exactly one entry per input report in
input order, and each report whose individual call raises contributes
the dict `\x7b"error": str(e2), "input": r\x7d`, which normalization keeps
unchanged. -/
theorem c8_fallback_per_report (m : PyVal → Except String PyVal) (reports : List String)
    (e0 : String) (hb : m (PyVal.list (reports.map PyVal.str)) = .error e0)
    (hnc : listCollapse (reports.map (perReportCall m)) = reports.map (perReportCall m)) :
    annotate_reports m reports = .ok ((reports.map (perReportCall m)).map normOne)
    ∧ ((reports.map (perReportCall m)).map normOne).length = reports.length
    ∧ ∀ r e2, m (PyVal.str r) = .error e2 →
        normOne (perReportCall m r)
          = PyVal.dict [(PyVal.str "error", PyVal.str e2), (PyVal.str "input", PyVal.str r)] := by
  refine ⟨?_, by simp, ?_⟩
  · simp only [annotate_reports, hb]
    unfold normalize_radgraph_outputs
    rw [collapseShapes_list, hnc]
    simp [pyElems, Except.map]
  · intro r e2 h2
    have hpr : perReportCall m r
        = PyVal.dict [(PyVal.str "error", PyVal.str e2), (PyVal.str "input", PyVal.str r)] := by
      simp [perReportCall, h2]
    rw [hpr]
    rfl

/-- Witness for the amended C8 at the one-report batch `["r1"]`. -/
theorem c8_witness :
    mBothFail (PyVal.list (["r1"].map PyVal.str)) = .error "listfail"
    ∧ listCollapse (["r1"].map (perReportCall mBothFail)) = ["r1"].map (perReportCall mBothFail)
    ∧ (annotate_reports mBothFail ["r1"] = .ok ((["r1"].map (perReportCall mBothFail)).map normOne)
      ∧ ((["r1"].map (perReportCall mBothFail)).map normOne).length = (["r1"] : List String).length
      ∧ ∀ r e2, mBothFail (PyVal.str r) = .error e2 →
          normOne (perReportCall mBothFail r)
            = PyVal.dict [(PyVal.str "error", PyVal.str e2), (PyVal.str "input", PyVal.str r)]) :=
  ⟨rfl, rfl, c8_fallback_per_report mBothFail ["r1"] "listfail" rfl rfl⟩

lemma pyOr_eq_firstTruthy2 (a b c : PyVal) :
    pyOr a (pyOr b c) = firstTruthy [a, b] c := by
  simp only [pyOr, firstTruthy, List.find?]
  cases ha : a.truthy <;> cases hb : b.truthy <;> simp [ha, hb]

lemma pyOr_eq_firstTruthy3 (a b c d : PyVal) :
    pyOr a (pyOr b (pyOr c d)) = firstTruthy [a, b, c] d := by
  simp only [pyOr, firstTruthy, List.find?]
  cases ha : a.truthy <;> cases hb : b.truthy <;> cases hc : c.truthy <;> simp [ha, hb, hc]

lemma pyOr_eq_firstTruthy4 (a b c d : PyVal) :
    pyOr a (pyOr b (pyOr c d)) = firstTruthy [a, b, c, d] d := by
  simp only [pyOr, firstTruthy, List.find?]
  cases ha : a.truthy <;> cases hb : b.truthy <;> cases hc : c.truthy <;>
    cases hd : d.truthy <;> simp [ha, hb, hc, hd]

lemma entRecOf_eq_spec (eid : PyVal) (edd : List (PyVal × PyVal)) :
    entRecOf eid edd = specEntRec eid edd := by
  unfold entRecOf specEntRec
  rw [pyOr_eq_firstTruthy3]
  rfl

lemma relRecOf_eq_spec (r : PyVal) : relRecOf r = specRelRec r := by
  match r with
  | PyVal.dict rd =>
    simp only [relRecOf, specRelRec]
    rw [pyOr_eq_firstTruthy4, pyOr_eq_firstTruthy4, pyOr_eq_firstTruthy2]
  | PyVal.list [] => rfl
  | PyVal.list [a] => rfl
  | PyVal.list [a, b] => rfl
  | PyVal.list (a :: b :: c :: t) => rfl
  | PyVal.tuple [] => rfl
  | PyVal.tuple [a] => rfl
  | PyVal.tuple [a, b] => rfl
  | PyVal.tuple (a :: b :: c :: t) => rfl
  | PyVal.none => rfl
  | PyVal.bool b => rfl
  | PyVal.int n => rfl
  | PyVal.str s => rfl

lemma exists_dict_of_isDict {v : PyVal} (h : v.isDict = true) :
    ∃ d, v = PyVal.dict d := by
  cases v with
  | dict d => exact ⟨d, rfl⟩
  | none => simp [PyVal.isDict] at h
  | bool b => simp [PyVal.isDict] at h
  | int n => simp [PyVal.isDict] at h
  | str s => simp [PyVal.isDict] at h
  | list l => simp [PyVal.isDict] at h
  | tuple l => simp [PyVal.isDict] at h

lemma entLoop_of_all_dict {l : List (PyVal × PyVal)}
    (h : ∀ kv ∈ l, (kv.2).isDict = true) :
    entLoop l = .ok (l.map (fun kv => entRecOf kv.1 (pyDictEntries kv.2))) := by
  induction l with
  | nil => rfl
  | cons a t ih =>
    obtain ⟨dd, hdd⟩ := exists_dict_of_isDict (h a (by simp))
    have ha : entStep a = .ok (entRecOf a.1 (pyDictEntries a.2)) := by
      simp [entStep, hdd, pyDictEntries]
    simp [entLoop, ha, ih (fun kv hkv => h kv (by simp [hkv]))]

lemma extractEnts_ok_of_safe {out : PyVal} (h : entsSafe out = true) :
    ∃ ents, extractEnts out = .ok ents := by
  cases out with
  | dict d =>
    cases hpl : pyLookup d "entities" with
    | none => exact ⟨[], by simp [extractEnts, hpl]⟩
    | some v =>
      cases v with
      | dict entd =>
        have hall : ∀ kv ∈ entd, (kv.2).isDict = true := by
          have h2 := h
          simp only [entsSafe, hpl] at h2
          simpa [List.all_eq_true] using h2
        exact ⟨entd.map (fun kv => entRecOf kv.1 (pyDictEntries kv.2)),
          by simp [extractEnts, hpl, entLoop_of_all_dict hall]⟩
      | none => exact ⟨[], by simp [extractEnts, hpl]⟩
      | bool b => exact ⟨[], by simp [extractEnts, hpl]⟩
      | int n => exact ⟨[], by simp [extractEnts, hpl]⟩
      | str s => exact ⟨[], by simp [extractEnts, hpl]⟩
      | list l => exact ⟨[], by simp [extractEnts, hpl]⟩
      | tuple l => exact ⟨[], by simp [extractEnts, hpl]⟩
  | none => exact ⟨[], rfl⟩
  | bool b => exact ⟨[], rfl⟩
  | int n => exact ⟨[], rfl⟩
  | str s => exact ⟨[], rfl⟩
  | list l => exact ⟨[], rfl⟩
  | tuple l => exact ⟨[], rfl⟩

lemma extractRels_nil {out : PyVal} (h : relationsNotAList out = true) :
    extractRels out = [] := by
  cases out with
  | dict d =>
    cases hpl : pyLookup d "relations" with
    | none => simp [extractRels, hpl]
    | some v =>
      cases v with
      | list rl => simp [relationsNotAList, hpl] at h
      | none => simp [extractRels, hpl]
      | bool b => simp [extractRels, hpl]
      | int n => simp [extractRels, hpl]
      | str s => simp [extractRels, hpl]
      | tuple l => simp [extractRels, hpl]
      | dict d2 => simp [extractRels, hpl]
  | none => rfl
  | bool b => rfl
  | int n => rfl
  | str s => rfl
  | list l => rfl
  | tuple l => rfl

/-- Counterexample to C4 as stated: for the dict
`\x7b"entities": \x7b"e1": 5\x7d\x7d` — whose `entities` key does map to a dict —
`_extract_entities_relations` raises (`5` has no `.get`) and returns no
entity records at all. -/
theorem c4_counterexample :
    _extract_entities_relations entBadInput
      = .error "AttributeError: object has no attribute get" := rfl

/-- Claim C4 as amended: for every dict `out` whose key `entities` maps
to a dict all of whose values are themselves dicts,
`_extract_entities_relations` returns exactly one entity record per key,
in the dict's iteration order, with fields `id`, `text`, `label`,
`start`, `end` as claimed (`text` the first truthy of
`text`/`tokens`/`tokens_text` else `""`; `label` if truthy else `""`;
`start`/`end` defaulting to `None`). -/
theorem c4_entities (d entd : List (PyVal × PyVal))
    (hlook : pyLookup d "entities" = some (PyVal.dict entd))
    (hvals : ∀ kv ∈ entd, (kv.2).isDict = true)
    (_hkeys : (entd.map Prod.fst).Nodup) :
    (_extract_entities_relations (PyVal.dict d)).map Prod.fst
      = .ok (entd.map (fun kv => specEntRec kv.1 (pyDictEntries kv.2)))
    ∧ (entd.map (fun kv => specEntRec kv.1 (pyDictEntries kv.2))).map EntRec.id
      = entd.map Prod.fst := by
  have hents : extractEnts (PyVal.dict d)
      = .ok (entd.map (fun kv => entRecOf kv.1 (pyDictEntries kv.2))) := by
    simp [extractEnts, hlook, entLoop_of_all_dict hvals]
  have hfun : (fun (kv : PyVal × PyVal) => entRecOf kv.1 (pyDictEntries kv.2))
      = (fun (kv : PyVal × PyVal) => specEntRec kv.1 (pyDictEntries kv.2)) :=
    funext (fun kv => entRecOf_eq_spec kv.1 (pyDictEntries kv.2))
  constructor
  · simp only [_extract_entities_relations, hents, Except.map, hfun]
  · simp [specEntRec]

/-- Witness for the amended C4 at a concrete single-entity dict. -/
theorem c4_witness :
    pyLookup [(PyVal.str "entities",
        PyVal.dict [(PyVal.str "e1", PyVal.dict [(PyVal.str "text", PyVal.str "hi")])])] "entities"
      = some (PyVal.dict [(PyVal.str "e1", PyVal.dict [(PyVal.str "text", PyVal.str "hi")])])
    ∧ (∀ kv ∈ [(PyVal.str "e1", PyVal.dict [(PyVal.str "text", PyVal.str "hi")])],
        (Prod.snd kv).isDict = true)
    ∧ ([(PyVal.str "e1", PyVal.dict [(PyVal.str "text", PyVal.str "hi")])].map Prod.fst).Nodup
    ∧ ((_extract_entities_relations (PyVal.dict [(PyVal.str "entities",
          PyVal.dict [(PyVal.str "e1", PyVal.dict [(PyVal.str "text", PyVal.str "hi")])])])).map Prod.fst
        = .ok ([(PyVal.str "e1", PyVal.dict [(PyVal.str "text", PyVal.str "hi")])].map
            (fun kv => specEntRec kv.1 (pyDictEntries kv.2)))
      ∧ ([(PyVal.str "e1", PyVal.dict [(PyVal.str "text", PyVal.str "hi")])].map
            (fun kv => specEntRec kv.1 (pyDictEntries kv.2))).map EntRec.id
        = [(PyVal.str "e1", PyVal.dict [(PyVal.str "text", PyVal.str "hi")])].map Prod.fst) := by
  refine ⟨rfl, ?_, by simp, ?_⟩
  · intro kv hkv
    simp at hkv
    rw [hkv]
    rfl
  · exact c4_entities _ _ rfl (by intro kv hkv; simp at hkv; rw [hkv]; rfl) (by simp)

/-- Counterexample to C5 as stated: in the relation element
`\x7b"source": "", "from": "B"\x7d` the key `source` is present (mapping to the
falsy `""`), yet the record's `source` is taken from `from` — the code
takes the first truthy value, not the first present key. -/
theorem c5_counterexample :
    _extract_entities_relations relCexInput
      = .ok ([], [{ source := PyVal.str "B", target := PyVal.none, label := PyVal.str "" }])
    ∧ PyVal.str "B" ≠ PyVal.str "" := by
  refine ⟨rfl, ?_⟩
  intro h
  injection h with h2
  exact absurd h2 (by decide)

/-- Claim C5 as amended: provided the entity pass cannot raise, for
every dict `out` whose key `relations` maps to a list, each dict element
yields a record whose `source`/`target` are the first *truthy* values
among the respective key chains (else the value of the last key, `None`
when absent) and whose `label` is the first truthy of `label`/`type`
else `""`; list/tuple elements of length at least 3 map positionally;
other elements are dropped; and when `out` is not a dict or `relations`
is not a list, the relation list is empty. -/
theorem c5_relations :
    (∀ d rl, pyLookup d "relations" = some (PyVal.list rl) →
      entsSafe (PyVal.dict d) = true →
      (_extract_entities_relations (PyVal.dict d)).map Prod.snd
        = .ok (rl.filterMap specRelRec))
    ∧ (∀ out, entsSafe out = true → relationsNotAList out = true →
      (_extract_entities_relations out).map Prod.snd = .ok []) := by
  have hfun : relRecOf = specRelRec := funext relRecOf_eq_spec
  constructor
  · intro d rl hrl hsafe
    obtain ⟨ents, hents⟩ := extractEnts_ok_of_safe hsafe
    simp only [_extract_entities_relations, hents, extractRels, hrl, Except.map, hfun]
  · intro out hsafe hnot
    obtain ⟨ents, hents⟩ := extractEnts_ok_of_safe hsafe
    simp only [_extract_entities_relations, hents, extractRels_nil hnot, Except.map]

/-- Witness for the amended C5 at concrete inputs. -/
theorem c5_witness :
    pyLookup [(PyVal.str "relations",
        PyVal.list [PyVal.list [PyVal.str "s", PyVal.str "t", PyVal.str "l"]])] "relations"
      = some (PyVal.list [PyVal.list [PyVal.str "s", PyVal.str "t", PyVal.str "l"]])
    ∧ entsSafe (PyVal.dict [(PyVal.str "relations",
        PyVal.list [PyVal.list [PyVal.str "s", PyVal.str "t", PyVal.str "l"]])]) = true
    ∧ (_extract_entities_relations (PyVal.dict [(PyVal.str "relations",
        PyVal.list [PyVal.list [PyVal.str "s", PyVal.str "t", PyVal.str "l"]])])).map Prod.snd
      = .ok ([PyVal.list [PyVal.str "s", PyVal.str "t", PyVal.str "l"]].filterMap specRelRec)
    ∧ entsSafe (PyVal.str "plain") = true
    ∧ relationsNotAList (PyVal.str "plain") = true
    ∧ (_extract_entities_relations (PyVal.str "plain")).map Prod.snd = .ok [] :=
  ⟨rfl, rfl, c5_relations.1 _ _ rfl rfl, rfl, rfl, c5_relations.2 (PyVal.str "plain") rfl rfl⟩

/-- Claim C2 (code bug): for every non-whitespace report text the
Annotate handler shows an error instead of running the model —
`app.py` calls `load_radgraph_model(model_type=...)` while the function's
only parameter is named `model_id`, so the call raises `TypeError`
before any model is loaded, whatever the underlying loader would do. -/
theorem c2_model_never_called
    (loadImpl : Option String → Except String (PyVal → Except String PyVal))
    (model_type report_text : String)
    (h : (pyStrip report_text).isEmpty = false) :
    run_annotate_click loadImpl model_type report_text = AppResult.errorShown := by
  have hm : "model_type" ∉ load_radgraph_model_params := by simp [load_radgraph_model_params]
  simp [run_annotate_click, h, _get_model, hm]

/-- Witness for C2 at the default sidebar model id and the text
`"hello"`. -/
theorem c2_witness :
    (pyStrip "hello").isEmpty = false
    ∧ run_annotate_click (fun _ => .ok mConstDict) "modern-radgraph-xl" "hello"
        = AppResult.errorShown :=
  ⟨rfl, c2_model_never_called (fun _ => .ok mConstDict) "modern-radgraph-xl" "hello" rfl⟩

/-- Claim C10: `ensure_hf_auth` never raises (it is a total Boolean
function of the environment and the login outcome): it returns `false`
when none of the three token variables is set and when the login call
raises, it returns `true` exactly when a non-empty token is found and
the login call succeeds, and `load_radgraph_model` discards its result,
proceeding identically whatever the login outcome. -/
theorem c10_ensure_hf_auth :
    (∀ (env : String → Option String) (hf_login : String → Except String Unit),
      env "HUGGINGFACEHUB_API_TOKEN" = Option.none → env "HF_TOKEN" = Option.none →
      env "HUGGINGFACE_TOKEN" = Option.none → ensure_hf_auth env hf_login = false)
    ∧ (∀ (env : String → Option String) (hf_login : String → Except String Unit) (t e : String),
      pyOrStrOpt (env "HUGGINGFACEHUB_API_TOKEN")
          (pyOrStrOpt (env "HF_TOKEN") (env "HUGGINGFACE_TOKEN")) = some t →
      hf_login t = .error e → ensure_hf_auth env hf_login = false)
    ∧ (∀ (env : String → Option String) (hf_login : String → Except String Unit),
      ensure_hf_auth env hf_login = true ↔
        ∃ t, pyOrStrOpt (env "HUGGINGFACEHUB_API_TOKEN")
            (pyOrStrOpt (env "HF_TOKEN") (env "HUGGINGFACE_TOKEN")) = some t
          ∧ t.isEmpty = false ∧ hf_login t = .ok ())
    ∧ (∀ (α : Type) (env : String → Option String)
        (login1 login2 : String → Except String Unit)
        (rg_init : String → Except String α) (mid : Option String),
      load_radgraph_model env login1 rg_init mid = load_radgraph_model env login2 rg_init mid) := by
  refine ⟨?_, ?_, ?_, fun α env l1 l2 rg_init mid => rfl⟩
  · intro env hf_login h1 h2 h3
    simp [ensure_hf_auth, h1, h2, h3, pyOrStrOpt]
  · intro env hf_login t e htok herr
    by_cases he : t.isEmpty
    · simp [ensure_hf_auth, htok, he]
    · simp [ensure_hf_auth, htok, he, herr]
  · intro env hf_login
    cases htok : pyOrStrOpt (env "HUGGINGFACEHUB_API_TOKEN")
        (pyOrStrOpt (env "HF_TOKEN") (env "HUGGINGFACE_TOKEN")) with
    | none => simp [ensure_hf_auth, htok]
    | some t =>
      by_cases he : t.isEmpty
      · simp [ensure_hf_auth, htok, he]
      · cases hl : hf_login t with
        | ok u => simp [ensure_hf_auth, htok, he, hl]
        | error e => simp [ensure_hf_auth, htok, he, hl]

/-- Witness for C10: an empty environment gives `false`; a token found
under `HF_TOKEN` gives `false` on a raising login and `true` on a
successful one. -/
theorem c10_witness :
    (envEmpty "HUGGINGFACEHUB_API_TOKEN" = Option.none
      ∧ envEmpty "HF_TOKEN" = Option.none
      ∧ envEmpty "HUGGINGFACE_TOKEN" = Option.none
      ∧ ensure_hf_auth envEmpty loginAlwaysOk = false)
    ∧ (pyOrStrOpt (envHfToken "HUGGINGFACEHUB_API_TOKEN")
          (pyOrStrOpt (envHfToken "HF_TOKEN") (envHfToken "HUGGINGFACE_TOKEN")) = some "tok"
      ∧ loginAlwaysFails "tok" = .error "login raised"
      ∧ ensure_hf_auth envHfToken loginAlwaysFails = false)
    ∧ ensure_hf_auth envHfToken loginAlwaysOk = true :=
  ⟨⟨rfl, rfl, rfl, c10_ensure_hf_auth.1 envEmpty loginAlwaysOk rfl rfl rfl⟩,
   ⟨rfl, rfl, c10_ensure_hf_auth.2.1 envHfToken loginAlwaysFails "tok" "login raised" rfl rfl⟩,
   (c10_ensure_hf_auth.2.2.1 envHfToken loginAlwaysOk).mpr ⟨"tok", rfl, rfl, rfl⟩⟩
